import Mathlib

/-!
# bubble: USB enumeration (`src/app/usb_tool.cpp`)

A shallow embedding of `UsbTool` and theorems about it.

Conventions of the embedding.

* Machine integers are `Nat` (unsigned fields: `uint8_t`, `uint16_t`) or `Int`
  (`int` return codes, `ssize_t` counts).
* A `std::string` is a Lean `String`, one `Char` per C `char`; string
  literals of the source are kept as written.
* A C array reached through a pointer (`devices[i]`, `interface[i]`,
  `altsetting[j]`, `endpoint[i]`, the bytes at `buf.data()`) is a function of
  the offset.
* libusb is an external library: the host controller is a value of `Host`
  giving the result of every libusb query, and `Search` returns, besides the
  records, the sequence of libusb calls and log lines it made.
-/

namespace UsbTool

/-! ## Version decoder -/

/-- The lowercase digit table used by `fmt` for the presentation type `x`. -/
def hexDigits : List Char :=
  "0123456789abcdef".data

/-- The body of the digit loop of `fmt` for `{:x}`,
`do { *--p = digits[value & 15]; } while ((value >>= 4) != 0);`
writing the digits from the last one backwards in front of `acc`. -/
def format_uint_hex (value : Nat) (acc : List Char) : List Char :=
  let acc1 := hexDigits.getD (value &&& 15) '0' :: acc
  if value >>> 4 = 0 then acc1 else format_uint_hex (value >>> 4) acc1
termination_by value
decreasing_by
  rename_i h
  simp only [Nat.shiftRight_eq_div_pow] at h ⊢
  omega

/-- The replacement field `{:x}` of `fmt::format` applied to an unsigned value. -/
def fmt_x (value : Nat) : String :=
  String.mk (format_uint_hex value [])

/-- `UsbTool::ToVersion` (usb_tool.cpp:117-124):
`fmt::format("USB {:x}.{:x}", bcdUsb >> 8, (bcdUsb >> 1) & 0xF)`. -/
def ToVersion (bcdUsb : Nat) : String :=
  "USB " ++ fmt_x (bcdUsb >>> 8) ++ "." ++ fmt_x ((bcdUsb >>> 1) &&& 0xF)

/-! ## Class classifier -/

/-- `UsbTool::GetDeviceClass` (usb_tool.cpp:126-208): the chain of
conditionals assigning `clazz` and `sub_clazz`, both initially empty. -/
def GetDeviceClass (device_class device_sub_class : Nat) : String × String :=
  if device_class = 0x01 then
    ("音频设备",
      if device_sub_class = 0x01 then "音频控制接口"
      else if device_sub_class = 0x02 then "音频流接口"
      else if device_sub_class = 0x03 then "MIDI流接口"
      else "")
  else if device_class = 0x02 then
    ("通信设备",
      if device_sub_class = 0x01 then "直接线控模型"
      else if device_sub_class = 0x02 then "抽象控制模型"
      else if device_sub_class = 0x03 then "电话控制模型"
      else "")
  else if device_class = 0x03 then
    ("人机接口",
      if device_sub_class = 0x01 then "引导接口"
      else "")
  else if device_class = 0x05 then ("物理设备", "")
  else if device_class = 0x06 then ("图像设备", "")
  else if device_class = 0x07 then ("打印机", "")
  else if device_class = 0x08 then
    ("大容量存储设备",
      if device_sub_class = 0x01 then "RBC"
      else if device_sub_class = 0x02 then "ATAPI(CD/DVD等)"
      else if device_sub_class = 0x03 then "QIC-157(磁带)"
      else if device_sub_class = 0x04 then "UFI(软盘)"
      else if device_sub_class = 0x05 then "8070i(可移动介质)"
      else if device_sub_class = 0x06 then "SCSI(如U盘)"
      else "")
  else if device_class = 0x09 then
    ("集线器",
      if device_sub_class = 0x00 then "普通集线器"
      else if device_sub_class = 0x01 then "智能集线器"
      else "")
  else if device_class = 0x0A then ("CDC数据设备", "")
  else if device_class = 0x0B then ("智能卡", "")
  else if device_class = 0x0D then ("内容安全设备", "")
  else if device_class = 0x0E then ("视频设备", "")
  else if device_class = 0x0F then ("个人医疗设备", "")
  else if device_class = 0x10 then ("音频/视频设备", "")
  else if device_class = 0xDC then ("诊断设备", "")
  else if device_class = 0xE0 then
    ("无线控制器",
      if device_sub_class = 0x01 then "RF控制器(如蓝牙)"
      else if device_sub_class = 0x02 then "Wi-Fi"
      else if device_sub_class = 0x03 then "超宽带"
      else if device_sub_class = 0x04 then "蓝牙AMP"
      else "")
  else ("", "")

/-! ## The simulated host controller -/

/-- `struct libusb_endpoint_descriptor`, the field the walk reads. -/
structure libusb_endpoint_descriptor where
  bEndpointAddress : Nat

/-- `struct libusb_interface_descriptor`: one alternate setting. -/
structure libusb_interface_descriptor where
  bNumEndpoints : Nat
  endpoint : Nat → libusb_endpoint_descriptor

/-- `struct libusb_interface`: the alternate settings of one interface. -/
structure libusb_interface where
  num_altsetting : Int
  altsetting : Nat → libusb_interface_descriptor

/-- `struct libusb_config_descriptor`, the fields the walk reads. -/
structure libusb_config_descriptor where
  bNumInterfaces : Nat
  interface : Nat → libusb_interface

/-- `struct libusb_device_descriptor`, the fields `Search` reads. -/
structure libusb_device_descriptor where
  bcdUSB : Nat
  bDeviceClass : Nat
  bDeviceSubClass : Nat
  idVendor : Nat
  idProduct : Nat
  iManufacturer : Nat
  iProduct : Nat
  iSerialNumber : Nat
  bNumConfigurations : Nat

/-- One attached device as the host controller answers for it: the return
code of each query together with what the query writes through its output
pointer. -/
structure libusb_device where
  /-- `libusb_get_device_descriptor(device, &desc)`. -/
  get_device_descriptor : Int × libusb_device_descriptor
  /-- `libusb_get_config_descriptor(dev, i, &config_desc)`. -/
  get_config_descriptor : Nat → Int × libusb_config_descriptor
  /-- `libusb_open(device, &device_handle)`. -/
  open_ret : Int
  /-- `libusb_get_string_descriptor_ascii(dev_handle, desc_index, data, length)`:
  the return code and the characters found at `data` after the call (libusb
  writes, and counts, fewer than `length` of them). -/
  get_string_descriptor_ascii : Nat → Nat → Int × (Nat → Char)
  /-- `libusb_get_bus_number(device)`. -/
  get_bus_number : Nat
  /-- `libusb_get_device_address(device)`. -/
  get_device_address : Nat

/-- The host controller: session initialisation, the device count returned
by `libusb_get_device_list` and the array it stores in `devices`. -/
structure Host where
  init_context : Int
  get_device_list : Int
  devices : Nat → libusb_device

/-- `LIBUSB_SUCCESS` of libusb.h. -/
def LIBUSB_SUCCESS : Int := 0

/-- `kMaxDescLength` (usb_tool.h:11). -/
def kMaxDescLength : Nat := 384

/-- `struct UsbInfo` (usb_tool.h:13-25). -/
structure UsbInfo where
  version : String
  clazz : String
  sub_clazz : String
  pid : Nat
  vid : Nat
  bus_number : Nat
  address : Nat
  config_num : Nat
  serial_number : String
  manufacturer : String
  product : String
  deriving DecidableEq, Repr

/-- What `Search` does that is visible from outside: the libusb calls, with
a device named by its position in the device list, and the log lines.
Destructors of the smart pointers appear as the call they make. The two
`free` calls are the libusb releases of a device list and of a configuration
descriptor. -/
inductive Event where
  | libusb_init_context
  | libusb_exit
  | libusb_get_device_list
  | libusb_free_device_list
  | libusb_free_config_descriptor (device config_index : Nat)
  | libusb_get_device_descriptor (device : Nat)
  | libusb_get_config_descriptor (device config_index : Nat)
  | libusb_open (device : Nat)
  | libusb_close (device : Nat)
  | libusb_get_string_descriptor_ascii (device desc_index length : Nat)
  | libusb_get_bus_number (device : Nat)
  | libusb_get_device_address (device : Nat)
  | warn (call : String) (code : Int)
  | info_device_found (count : Int)
  | info_class (device_class device_sub_class : Nat)
  | info_interface_number (interface_num : Nat)
  | info_endpoint_address (address : Nat)
  | info_usb_info (info : UsbInfo)
  deriving DecidableEq, Repr

/-! ## Descriptor reader and topology walker -/

/-- `UsbTool::GetStringDesc` (usb_tool.cpp:76-84). The result is
`std::string{buf.data(), ret}`: the first `ret` characters at `buf`. -/
def GetStringDesc (dev_handle : libusb_device) (device : Nat) (desc_index : Nat)
    (tr : List Event) : String × List Event :=
  let r := dev_handle.get_string_descriptor_ascii desc_index kMaxDescLength
  let ret := r.1
  let buf := r.2
  let tr := tr ++ [Event.libusb_get_string_descriptor_ascii device desc_index kMaxDescLength]
  if ret < 0 then
    ("", tr ++ [Event.warn "libusb_get_string_descriptor_ascii" ret])
  else
    (String.mk ((List.range ret.toNat).map buf), tr)

/-- `UsbTool::GetEndpointInfo` (usb_tool.cpp:109-115). -/
def GetEndpointInfo (interface_desc : libusb_interface_descriptor) (tr : List Event) :
    List Event :=
  let endpoint_num := interface_desc.bNumEndpoints
  (List.range endpoint_num).foldl
    (fun tr i =>
      let endpoint_desc := interface_desc.endpoint i
      tr ++ [Event.info_endpoint_address endpoint_desc.bEndpointAddress])
    tr

/-- `UsbTool::GetInterfaceInfo` (usb_tool.cpp:98-107). -/
def GetInterfaceInfo (config_desc : libusb_config_descriptor) (tr : List Event) :
    List Event :=
  let interface_num := config_desc.bNumInterfaces
  let tr := tr ++ [Event.info_interface_number interface_num]
  (List.range interface_num).foldl
    (fun tr i =>
      let iface := config_desc.interface i
      (List.range iface.num_altsetting.toNat).foldl
        (fun tr j => GetEndpointInfo (iface.altsetting j) tr)
        tr)
    tr

/-- `UsbTool::GetConfigDesc` (usb_tool.cpp:86-96). -/
def GetConfigDesc (dev : libusb_device) (device : Nat) (config_num : Nat)
    (tr : List Event) : List Event :=
  (List.range config_num).foldl
    (fun tr i =>
      let r := dev.get_config_descriptor i
      let ret := r.1
      let config_desc := r.2
      let tr := tr ++ [Event.libusb_get_config_descriptor device i]
      if ret < 0 then
        tr ++ [Event.warn "libusb_get_config_descriptor" ret]
      else
        GetInterfaceInfo config_desc tr)
    tr

/-! ## Enumerator -/

/-- The body of the device loop of `UsbTool::Search` (usb_tool.cpp:34-71)
for `devices[i]`, on the records and the trace so far. A `continue` leaves
the records as they are. -/
def Search_body (host : Host) (st : List UsbInfo × List Event) (i : Nat) :
    List UsbInfo × List Event :=
  let infos := st.1
  let tr := st.2
  let device := host.devices i
  let ret := device.get_device_descriptor.1
  let desc := device.get_device_descriptor.2
  let tr := tr ++ [Event.libusb_get_device_descriptor i]
  if ret < 0 then
    (infos, tr ++ [Event.warn "libusb_get_device_descriptor" ret])
  else
    let vid := desc.idVendor
    let pid := desc.idProduct
    let config_num := desc.bNumConfigurations
    let version := ToVersion desc.bcdUSB
    let clazz := GetDeviceClass desc.bDeviceClass desc.bDeviceSubClass
    let tr := tr ++ [Event.info_class desc.bDeviceClass desc.bDeviceSubClass]
    let tr := GetConfigDesc device i config_num tr
    let ret := device.open_ret
    let tr := tr ++ [Event.libusb_open i]
    if ret < 0 then
      (infos, tr ++ [Event.warn "libusb_open" ret])
    else
      let s := GetStringDesc device i desc.iSerialNumber tr
      let m := GetStringDesc device i desc.iManufacturer s.2
      let p := GetStringDesc device i desc.iProduct m.2
      let tr := p.2 ++ [Event.libusb_get_bus_number i]
      let bus_number := device.get_bus_number
      let tr := tr ++ [Event.libusb_get_device_address i]
      let address := device.get_device_address
      let info : UsbInfo :=
        { version := version, clazz := clazz.1, sub_clazz := clazz.2, pid := pid, vid := vid,
          bus_number := bus_number, address := address, config_num := config_num,
          serial_number := s.1, manufacturer := m.1, product := p.1 }
      let tr := tr ++ [Event.info_usb_info info]
      (infos ++ [info], tr ++ [Event.libusb_close i])

/-- `UsbTool::Search` (usb_tool.cpp:13-74): the records returned and the
trace of the pass. `context` owns the session from line 22 on, so its
destructor calls `libusb_exit` at each later return. -/
def Search (host : Host) : List UsbInfo × List Event :=
  let infos : List UsbInfo := []
  let ret := host.init_context
  let tr := [Event.libusb_init_context]
  if ret ≠ LIBUSB_SUCCESS then
    (infos, tr ++ [Event.warn "libusb_init" ret])
  else
    let count := host.get_device_list
    let tr := tr ++ [Event.libusb_get_device_list]
    if count < 0 then
      (infos, tr ++ [Event.warn "libusb_get_device_list" count, Event.libusb_exit,
        Event.libusb_exit])
    else
      let tr := tr ++ [Event.info_device_found count]
      let st := (List.range count.toNat).foldl (Search_body host) (infos, tr)
      (st.1, st.2 ++ [Event.libusb_exit])

/-! ## Reference definitions used to state the properties -/

/-- The lowercase hexadecimal rendering of a number, without leading zeros
(`0` is rendered `0`). -/
def lowerHex (n : Nat) : String :=
  String.mk (Nat.toDigits 16 n)

/-- The sixteen class bytes of the classification domain. -/
def knownClasses : List Nat :=
  [0x01, 0x02, 0x03, 0x05, 0x06, 0x07, 0x08, 0x09, 0x0A, 0x0B, 0x0D, 0x0E, 0x0F, 0x10, 0xDC, 0xE0]

/-- The known classes that have no subclass refinement. -/
def unrefinedClasses : List Nat :=
  [0x05, 0x06, 0x07, 0x0A, 0x0B, 0x0D, 0x0E, 0x0F, 0x10, 0xDC]

/-- The subclass bytes refined under a class byte. -/
def subclassRefinements (c : Nat) : List Nat :=
  if c = 0x01 then [1, 2, 3]
  else if c = 0x02 then [1, 2, 3]
  else if c = 0x03 then [1]
  else if c = 0x08 then [1, 2, 3, 4, 5, 6]
  else if c = 0x09 then [0, 1]
  else if c = 0xE0 then [1, 2, 3, 4]
  else []

/-- The nineteen (class byte, subclass byte) pairs that have a subclass
refinement. -/
def refinementPairs : List (Nat × Nat) :=
  [(0x01, 1), (0x01, 2), (0x01, 3), (0x02, 1), (0x02, 2), (0x02, 3), (0x03, 1),
    (0x08, 1), (0x08, 2), (0x08, 3), (0x08, 4), (0x08, 5), (0x08, 6), (0x09, 0), (0x09, 1),
    (0xE0, 1), (0xE0, 2), (0xE0, 3), (0xE0, 4)]

/-- The string a read at `desc_index` yields: empty on a negative return
code, otherwise the first `n` characters of the buffer, `n` the count
returned. -/
def readString (d : libusb_device) (desc_index : Nat) : String :=
  if (d.get_string_descriptor_ascii desc_index 384).1 < 0 then ""
  else String.mk ((List.range (d.get_string_descriptor_ascii desc_index 384).1.toNat).map
    (d.get_string_descriptor_ascii desc_index 384).2)

/-- Both steps a record needs succeed: the device-descriptor read and the
open. -/
def deviceOk (d : libusb_device) : Bool :=
  decide (0 ≤ d.get_device_descriptor.1) && decide (0 ≤ d.open_ret)

/-- The record of a device, field by field from its descriptor, its string
descriptors and its position on the bus. -/
def deviceRecord (d : libusb_device) : UsbInfo :=
  { version := ToVersion d.get_device_descriptor.2.bcdUSB
    clazz := (GetDeviceClass d.get_device_descriptor.2.bDeviceClass
      d.get_device_descriptor.2.bDeviceSubClass).1
    sub_clazz := (GetDeviceClass d.get_device_descriptor.2.bDeviceClass
      d.get_device_descriptor.2.bDeviceSubClass).2
    pid := d.get_device_descriptor.2.idProduct
    vid := d.get_device_descriptor.2.idVendor
    bus_number := d.get_bus_number
    address := d.get_device_address
    config_num := d.get_device_descriptor.2.bNumConfigurations
    serial_number := readString d d.get_device_descriptor.2.iSerialNumber
    manufacturer := readString d d.get_device_descriptor.2.iManufacturer
    product := readString d d.get_device_descriptor.2.iProduct }

/-- The endpoint addresses of one alternate setting, in endpoint order. -/
def endpointAddresses (alt : libusb_interface_descriptor) : List Nat :=
  (List.range alt.bNumEndpoints).map (fun k => (alt.endpoint k).bEndpointAddress)

/-- The endpoint addresses of one interface: alternate setting by alternate
setting. -/
def interfaceAddresses (iface : libusb_interface) : List Nat :=
  (List.range iface.num_altsetting.toNat).flatMap (fun j => endpointAddresses (iface.altsetting j))

/-- The endpoint addresses of a configuration: interface by interface. -/
def configAddresses (config_desc : libusb_config_descriptor) : List Nat :=
  (List.range config_desc.bNumInterfaces).flatMap
    (fun i => interfaceAddresses (config_desc.interface i))

/-- The endpoint addresses a trace logs, in the order logged. -/
def loggedAddresses (tr : List Event) : List Nat :=
  tr.filterMap (fun e =>
    match e with
    | Event.info_endpoint_address a => some a
    | _ => none)

/-- The interface counts a trace logs (one line opens each interface walk),
in the order logged. -/
def loggedInterfaceCounts (tr : List Event) : List Nat :=
  tr.filterMap (fun e =>
    match e with
    | Event.info_interface_number n => some n
    | _ => none)

/-- The configuration indices a trace fetches, in the order fetched. -/
def fetchedConfigs (tr : List Event) : List Nat :=
  tr.filterMap (fun e =>
    match e with
    | Event.libusb_get_config_descriptor _ k => some k
    | _ => none)

/-- What fetching configuration `k` of a device adds to the trace: the fetch,
then a warning when it fails and the interface walk when it succeeds. -/
def configTrace (dev : libusb_device) (device k : Nat) : List Event :=
  Event.libusb_get_config_descriptor device k ::
    (if (dev.get_config_descriptor k).1 < 0 then
      [Event.warn "libusb_get_config_descriptor" (dev.get_config_descriptor k).1]
    else GetInterfaceInfo (dev.get_config_descriptor k).2 [])

/-- What one string read adds to the trace: the read, then a warning when
it fails. -/
def stringTrace (dev : libusb_device) (device desc_index : Nat) : List Event :=
  Event.libusb_get_string_descriptor_ascii device desc_index 384 ::
    (if (dev.get_string_descriptor_ascii desc_index 384).1 < 0 then
      [Event.warn "libusb_get_string_descriptor_ascii"
        (dev.get_string_descriptor_ascii desc_index 384).1]
    else [])

/-- What one iteration of the device loop adds to the trace. -/
def deviceTrace (host : Host) (i : Nat) : List Event :=
  (Search_body host ([], []) i).2

/-- An event is a call on the session or on the device list. -/
def isSessionCall (e : Event) : Bool :=
  match e with
  | Event.libusb_init_context => true
  | Event.libusb_exit => true
  | Event.libusb_get_device_list => true
  | Event.libusb_free_device_list => true
  | _ => false

/-- The handle calls of one listed device: none when its descriptor read
fails, the open alone when the open fails, the open and the close
otherwise. -/
def handleCalls (host : Host) (i : Nat) : List Event :=
  if (host.devices i).get_device_descriptor.1 < 0 then []
  else if (host.devices i).open_ret < 0 then [Event.libusb_open i]
  else [Event.libusb_open i, Event.libusb_close i]

/-- An event is an open or a close of a device handle. -/
def isHandleCall (e : Event) : Bool :=
  match e with
  | Event.libusb_open _ => true
  | Event.libusb_close _ => true
  | _ => false

/-- An event is a diagnostic of the topology walk: a configuration fetch, an
interface count or an endpoint address. -/
def isWalkEvent (e : Event) : Bool :=
  match e with
  | Event.libusb_get_config_descriptor _ _ => true
  | Event.info_interface_number _ => true
  | Event.info_endpoint_address _ => true
  | _ => false

/-! ## Simulated host controllers used as concrete inputs -/

/-- A buffer holding the characters of `s`, zero beyond them. -/
def bufferOf (s : String) : Nat → Char :=
  fun k => s.data.getD k (Char.ofNat 0)

/-- An alternate setting with the given endpoint addresses. -/
def altsettingOf (addresses : List Nat) : libusb_interface_descriptor :=
  { bNumEndpoints := addresses.length
    endpoint := fun k => { bEndpointAddress := addresses.getD k 0 } }

/-- A configuration with one interface, one alternate setting and the
endpoints `0x81` and `0x02`. -/
def simpleConfig : libusb_config_descriptor :=
  { bNumInterfaces := 1
    interface := fun _ => { num_altsetting := 1, altsetting := fun _ => altsettingOf [0x81, 0x02] } }

/-- A device descriptor of a boot-interface HID device. -/
def hidDescriptor : libusb_device_descriptor :=
  { bcdUSB := 0x0200, bDeviceClass := 0x03, bDeviceSubClass := 0x01, idVendor := 0x1234,
    idProduct := 0x5678, iManufacturer := 1, iProduct := 2, iSerialNumber := 3,
    bNumConfigurations := 1 }

/-- A fully readable device: every query succeeds. -/
def readableDevice : libusb_device :=
  { get_device_descriptor := (0, hidDescriptor)
    get_config_descriptor := fun _ => (0, simpleConfig)
    open_ret := 0
    get_string_descriptor_ascii := fun desc_index _ =>
      if desc_index = 1 then (4, bufferOf "Acme")
      else if desc_index = 2 then (8, bufferOf "Keyboard")
      else if desc_index = 3 then (6, bufferOf "SN0001")
      else (-2, bufferOf "")
    get_bus_number := 1
    get_device_address := 4 }

/-- A device whose device-descriptor read fails (`LIBUSB_ERROR_IO`). -/
def unreadableDevice : libusb_device :=
  { readableDevice with get_device_descriptor := (-1, hidDescriptor), get_device_address := 5 }

/-- A device that cannot be opened (`LIBUSB_ERROR_ACCESS`). -/
def unopenableDevice : libusb_device :=
  { readableDevice with open_ret := -3, get_device_address := 6 }

/-- A device that opens, whose manufacturer string read and configuration
descriptor fetch fail. -/
def muteDevice : libusb_device :=
  { readableDevice with
    get_config_descriptor := fun _ => (-5, simpleConfig)
    get_string_descriptor_ascii := fun desc_index _ =>
      if desc_index = 1 then (-9, bufferOf "")
      else if desc_index = 2 then (5, bufferOf "Mouse")
      else if desc_index = 3 then (6, bufferOf "SN0002")
      else (-2, bufferOf "")
    get_device_address := 7 }

/-- A host controller listing four devices: unreadable, readable,
unopenable, mute. -/
def simulatedHost : Host :=
  { init_context := 0
    get_device_list := 4
    devices := fun i =>
      if i = 0 then unreadableDevice
      else if i = 1 then readableDevice
      else if i = 2 then unopenableDevice
      else muteDevice }

/-- A host controller whose session initialisation fails
(`LIBUSB_ERROR_OTHER`). -/
def initFailHost : Host :=
  { simulatedHost with init_context := -99 }

/-- A host controller whose device listing fails (`LIBUSB_ERROR_NO_MEM`). -/
def listFailHost : Host :=
  { simulatedHost with get_device_list := -11 }

/-- A host controller listing two devices: one fully readable, one whose
device-descriptor read fails. -/
def twoDeviceHost : Host :=
  { init_context := 0
    get_device_list := 2
    devices := fun i => if i = 0 then readableDevice else unreadableDevice }

/-- A readable device whose descriptor reports zero configurations. -/
def bareDevice : libusb_device :=
  { readableDevice with
    get_device_descriptor := (0, { hidDescriptor with bNumConfigurations := 0 }) }

/-- A host controller listing the bare device alone. -/
def bareHost : Host :=
  { init_context := 0
    get_device_list := 1
    devices := fun _ => bareDevice }

/-- The host `simulatedHost` with every configuration-descriptor fetch
failing (`LIBUSB_ERROR_NOT_FOUND`). -/
def walklessHost : Host :=
  { simulatedHost with
    devices := fun i =>
      { simulatedHost.devices i with get_config_descriptor := fun _ => (-5, simpleConfig) } }

/-! # Theorems -/

/-! ## Auxiliary lemmas -/

theorem hexDigits_getD (d : Nat) (hd : d < 16) : hexDigits.getD d '0' = Nat.digitChar d := by
  interval_cases d <;> rfl

theorem format_uint_hex_eq_toDigitsCore (fuel : Nat) :
    ∀ (value : Nat) (acc : List Char), value < fuel →
      format_uint_hex value acc = Nat.toDigitsCore 16 fuel value acc := by
  induction fuel with
  | zero => intro value acc h; omega
  | succ fuel ih =>
    intro value acc h
    rw [format_uint_hex, Nat.toDigitsCore]
    have hand : value &&& 15 = value % 16 := Nat.and_pow_two_sub_one_eq_mod value 4
    have hshift : value >>> 4 = value / 16 := by simp [Nat.shiftRight_eq_div_pow]
    simp only [hand, hshift, hexDigits_getD _ (Nat.mod_lt value (by decide : 0 < 16))]
    by_cases h0 : value / 16 = 0
    · simp [h0]
    · simp only [h0, dite_false, if_false]
      exact ih _ _ (by omega)

theorem fmt_x_eq_toDigits (value : Nat) : fmt_x value = String.mk (Nat.toDigits 16 value) := by
  unfold fmt_x Nat.toDigits
  rw [format_uint_hex_eq_toDigitsCore (value + 1) value [] (Nat.lt_succ_self value)]

theorem ToVersion_eq (bcdUsb : Nat) :
    ToVersion bcdUsb =
      "USB " ++ String.mk (Nat.toDigits 16 (bcdUsb / 256)) ++ "." ++
        String.mk (Nat.toDigits 16 (bcdUsb / 2 % 16)) := by
  have hand : (bcdUsb >>> 1) &&& 0xF = bcdUsb / 2 % 16 := by
    rw [Nat.and_pow_two_sub_one_eq_mod _ 4]; simp [Nat.shiftRight_eq_div_pow]
  have hshift : bcdUsb >>> 8 = bcdUsb / 256 := by simp [Nat.shiftRight_eq_div_pow]
  unfold ToVersion
  rw [hand, hshift, fmt_x_eq_toDigits, fmt_x_eq_toDigits]

theorem GetStringDesc_fst (d : libusb_device) (i idx : Nat) (tr : List Event) :
    (GetStringDesc d i idx tr).1 = readString d idx := by
  unfold GetStringDesc readString kMaxDescLength
  by_cases h : (d.get_string_descriptor_ascii idx 384).1 < 0 <;> simp [h]

theorem Search_body_fst (host : Host) (st : List UsbInfo × List Event) (i : Nat) :
    (Search_body host st i).1 =
      st.1 ++ (if deviceOk (host.devices i) then [deviceRecord (host.devices i)] else []) := by
  unfold Search_body deviceOk
  by_cases h1 : (host.devices i).get_device_descriptor.1 < 0
  · have h1n : ¬ 0 ≤ (host.devices i).get_device_descriptor.1 := by omega
    simp [h1, h1n]
  · have h1p : 0 ≤ (host.devices i).get_device_descriptor.1 := by omega
    by_cases h2 : (host.devices i).open_ret < 0
    · have h2n : ¬ 0 ≤ (host.devices i).open_ret := by omega
      simp [h1, h2, h2n]
    · have h2p : 0 ≤ (host.devices i).open_ret := by omega
      simp [h1, h2, h1p, h2p, GetStringDesc_fst, deviceRecord]

theorem foldl_Search_body_fst (host : Host) (l : List Nat) :
    ∀ st : List UsbInfo × List Event,
      (l.foldl (Search_body host) st).1 =
        st.1 ++ (l.filter (fun i => deviceOk (host.devices i))).map
          (fun i => deviceRecord (host.devices i)) := by
  induction l with
  | nil => intro st; simp
  | cons i l ih =>
    intro st
    rw [List.foldl_cons, ih, Search_body_fst]
    by_cases h : deviceOk (host.devices i) = true <;> simp [h, List.filter_cons]

theorem Search_fst (host : Host) :
    (Search host).1 =
      if host.init_context = LIBUSB_SUCCESS ∧ 0 ≤ host.get_device_list then
        ((List.range host.get_device_list.toNat).filter (fun i => deviceOk (host.devices i))).map
          (fun i => deviceRecord (host.devices i))
      else [] := by
  unfold Search
  by_cases h1 : host.init_context = LIBUSB_SUCCESS
  · by_cases h2 : host.get_device_list < 0
    · have h2n : ¬ 0 ≤ host.get_device_list := by omega
      simp [h1, h2, h2n]
    · have h2p : 0 ≤ host.get_device_list := by omega
      simp [h1, h2, h2p, foldl_Search_body_fst]
  · simp [h1]

/-! ## Version decoder -/

/-- C1: for every value `v` (in particular every 16-bit one), `ToVersion v`
is `"USB "`, the lowercase hexadecimal rendering of `v >> 8`, a dot, and the
lowercase hexadecimal rendering of `(v >> 1) & 0xF`; `ToVersion 0x0200` is
`"USB 2.0"` and `ToVersion 0x0110` is `"USB 1.8"`. -/
theorem C1_ToVersion_format :
    (∀ v : Nat, ToVersion v = "USB " ++ lowerHex (v >>> 8) ++ "." ++ lowerHex ((v >>> 1) &&& 0xF)) ∧
      ToVersion 0x0200 = "USB 2.0" ∧ ToVersion 0x0110 = "USB 1.8" := by
  refine ⟨fun v => ?_, ?_, ?_⟩
  · unfold ToVersion lowerHex
    rw [fmt_x_eq_toDigits, fmt_x_eq_toDigits]
  · rw [ToVersion_eq]; decide
  · rw [ToVersion_eq]; decide

/-- C2: at `bcdUsb = 0x0110` (major 1, minor nibble 1) the code renders the
minor part from `(v >> 1) & 0xF`, giving `"USB 1.8"`, and not from bits 4-7,
`(v >> 4) & 0xF`, which would give `"USB 1.1"`. -/
theorem C2_ToVersion_minor_not_bits_4_7 :
    ToVersion 0x0110 = "USB 1.8" ∧
      "USB " ++ lowerHex (0x0110 >>> 8) ++ "." ++ lowerHex ((0x0110 >>> 4) &&& 0xF) = "USB 1.1" ∧
      ToVersion 0x0110 ≠
        "USB " ++ lowerHex (0x0110 >>> 8) ++ "." ++ lowerHex ((0x0110 >>> 4) &&& 0xF) := by
  rw [ToVersion_eq]; decide

/-- C3: `0x0200` and `0x0202` differ only in the low nibble, yet the code
renders them differently, `"USB 2.0"` and `"USB 2.1"`: bits 1-3 of the
sub-minor nibble are surfaced. -/
theorem C3_ToVersion_low_nibble_surfaced :
    0x0200 / 16 = 0x0202 / 16 ∧ ToVersion 0x0200 = "USB 2.0" ∧ ToVersion 0x0202 = "USB 2.1" ∧
      ToVersion 0x0200 ≠ ToVersion 0x0202 := by
  rw [ToVersion_eq, ToVersion_eq]; decide

/-! ## Class classifier -/

/-- C4: the class name returned by `GetDeviceClass c s` is non-empty exactly
when `c` is one of the sixteen known class bytes, and for every other `c` the
result is `("", "")`, whatever `s` is. -/
theorem C4_GetDeviceClass_known_iff (c s : Nat) :
    ((GetDeviceClass c s).1 ≠ "" ↔ c ∈ knownClasses) ∧
      (c ∈ knownClasses ∨ GetDeviceClass c s = ("", "")) := by
  by_cases hc : c ∈ knownClasses
  · have hname : (GetDeviceClass c s).1 ≠ "" := by
      simp only [knownClasses, List.mem_cons, List.mem_singleton, List.not_mem_nil,
        or_false] at hc
      rcases hc with rfl | rfl | rfl | rfl | rfl | rfl | rfl | rfl | rfl | rfl | rfl | rfl |
        rfl | rfl | rfl | rfl <;> simp [GetDeviceClass]
    exact ⟨⟨fun _ => hc, fun _ => hname⟩, Or.inl hc⟩
  · have hres : GetDeviceClass c s = ("", "") := by
      simp only [knownClasses, List.mem_cons, List.mem_singleton, List.not_mem_nil,
        or_false, not_or] at hc
      simp [GetDeviceClass, hc]
    refine ⟨⟨fun h => absurd ?_ h, fun h => absurd h hc⟩, Or.inr hres⟩
    rw [hres]

/-- C5: for a known class byte `c` there is one non-empty class name returned
for every subclass byte; a subclass byte without refinement under `c` gives
`(className, "")`; and a class without refinements gives `(className, "")`
for every subclass byte. -/
theorem C5_GetDeviceClass_class_name (c : Nat) (hc : c ∈ knownClasses) :
    ∃ className : String, className ≠ "" ∧
      (∀ s, (GetDeviceClass c s).1 = className) ∧
      (∀ s, s ∉ subclassRefinements c → GetDeviceClass c s = (className, "")) ∧
      (c ∈ unrefinedClasses → ∀ s, GetDeviceClass c s = (className, "")) := by
  have hc1 := hc
  simp only [knownClasses, List.mem_cons, List.mem_singleton, List.not_mem_nil, or_false] at hc1
  refine ⟨(GetDeviceClass c 0xFF).1, ?_, fun s => ?_, fun s hs => ?_, fun hu s => ?_⟩
  · rcases hc1 with rfl | rfl | rfl | rfl | rfl | rfl | rfl | rfl | rfl | rfl | rfl | rfl | rfl |
      rfl | rfl | rfl <;> decide
  · rcases hc1 with rfl | rfl | rfl | rfl | rfl | rfl | rfl | rfl | rfl | rfl | rfl | rfl | rfl |
      rfl | rfl | rfl <;> simp [GetDeviceClass]
  · rcases hc1 with rfl | rfl | rfl | rfl | rfl | rfl | rfl | rfl | rfl | rfl | rfl | rfl | rfl |
      rfl | rfl | rfl <;> simp_all [GetDeviceClass, subclassRefinements]
  · rcases hc1 with rfl | rfl | rfl | rfl | rfl | rfl | rfl | rfl | rfl | rfl | rfl | rfl | rfl |
      rfl | rfl | rfl <;>
      first
        | exact absurd hu (by decide)
        | simp [GetDeviceClass]

/-- Witness of C5 at the mass-storage class byte `0x08`. -/
theorem C5_GetDeviceClass_class_name_witness :
    ∃ className : String, className ≠ "" ∧
      (∀ s, (GetDeviceClass 0x08 s).1 = className) ∧
      (∀ s, s ∉ subclassRefinements 0x08 → GetDeviceClass 0x08 s = (className, "")) ∧
      (0x08 ∈ unrefinedClasses → ∀ s, GetDeviceClass 0x08 s = (className, "")) :=
  C5_GetDeviceClass_class_name 0x08 (by decide)

/-- C6, as the claim states it, fails: the names returned for class `0x08`
are not the English strings `"mass-storage"` and
`"SCSI (e.g. USB flash drive)"`. -/
theorem C6_GetDeviceClass_examples_counterexample :
    ¬ (GetDeviceClass 0x08 0x06 = ("mass-storage", "SCSI (e.g. USB flash drive)") ∧
      GetDeviceClass 0x08 0xFF = ("mass-storage", "") ∧
      GetDeviceClass 0xFF 0x00 = ("", "")) := by
  decide

/-- C6, amended: `GetDeviceClass 0x08 0x06` is `("大容量存储设备", "SCSI(如U盘)")`,
`GetDeviceClass 0x08 0xFF` is `("大容量存储设备", "")` and
`GetDeviceClass 0xFF 0x00` is `("", "")`. -/
theorem C6_GetDeviceClass_examples :
    GetDeviceClass 0x08 0x06 = ("大容量存储设备", "SCSI(如U盘)") ∧
      GetDeviceClass 0x08 0xFF = ("大容量存储设备", "") ∧
      GetDeviceClass 0xFF 0x00 = ("", "") := by
  decide

/-! ## Enumerator -/

/-- C7: when session initialisation and device listing succeed, the records
returned by `Search` are the records of the listed devices whose
device-descriptor read and open both succeed, one each, in the order of the
device list; a failing device removes only itself, and nothing but those two
return codes decides whether a device is kept. -/
theorem C7_Search_skips_failing_devices (host : Host)
    (hinit : host.init_context = LIBUSB_SUCCESS) (hlist : 0 ≤ host.get_device_list) :
    (Search host).1 =
        ((List.range host.get_device_list.toNat).filter
          (fun i => decide (0 ≤ (host.devices i).get_device_descriptor.1) &&
            decide (0 ≤ (host.devices i).open_ret))).map
          (fun i => deviceRecord (host.devices i)) ∧
      (Search host).1.length =
        ((List.range host.get_device_list.toNat).filter
          (fun i => decide (0 ≤ (host.devices i).get_device_descriptor.1) &&
            decide (0 ≤ (host.devices i).open_ret))).length := by
  have h : (Search host).1 =
      ((List.range host.get_device_list.toNat).filter
        (fun i => decide (0 ≤ (host.devices i).get_device_descriptor.1) &&
          decide (0 ≤ (host.devices i).open_ret))).map
        (fun i => deviceRecord (host.devices i)) := by
    rw [Search_fst, if_pos ⟨hinit, hlist⟩]
    rfl
  exact ⟨h, by rw [h, List.length_map]⟩

/-- Witness of C7: of the four devices of `simulatedHost` (unreadable,
readable, unopenable, mute) the second and the fourth are returned, in that
order. -/
theorem C7_Search_skips_failing_devices_witness :
    (Search simulatedHost).1 = [deviceRecord readableDevice, deviceRecord muteDevice] ∧
      (Search simulatedHost).1.length = 2 := by
  have h := C7_Search_skips_failing_devices simulatedHost rfl (by decide)
  refine ⟨h.1.trans ?_, h.2.trans ?_⟩
  · rfl
  · rfl

/-- C8: when session initialisation fails, or succeeds and device listing
fails, `Search` returns no record, and its trace holds no device-descriptor
read and no open of any device. -/
theorem C8_Search_fatal_failures (host : Host)
    (hfail : host.init_context ≠ LIBUSB_SUCCESS ∨
      (host.init_context = LIBUSB_SUCCESS ∧ host.get_device_list < 0)) :
    (Search host).1 = [] ∧
      ∀ i : Nat, Event.libusb_get_device_descriptor i ∉ (Search host).2 ∧
        Event.libusb_open i ∉ (Search host).2 := by
  rcases hfail with h | ⟨h1, h2⟩
  · refine ⟨by simp [Search, h], fun i => ?_⟩
    simp [Search, h]
  · refine ⟨by simp [Search, h1, h2], fun i => ?_⟩
    simp [Search, h1, h2]

/-- Witness of C8 at a host whose initialisation fails and at a host whose
device listing fails. -/
theorem C8_Search_fatal_failures_witness :
    ((Search initFailHost).1 = [] ∧
      ∀ i : Nat, Event.libusb_get_device_descriptor i ∉ (Search initFailHost).2 ∧
        Event.libusb_open i ∉ (Search initFailHost).2) ∧
    ((Search listFailHost).1 = [] ∧
      ∀ i : Nat, Event.libusb_get_device_descriptor i ∉ (Search listFailHost).2 ∧
        Event.libusb_open i ∉ (Search listFailHost).2) :=
  ⟨C8_Search_fatal_failures initFailHost (Or.inl (by decide)),
    C8_Search_fatal_failures listFailHost (Or.inr ⟨rfl, by decide⟩)⟩

/-- C9: every record returned by `Search` comes from a listed device whose
descriptor read and open succeeded, and is assembled from that device: `vid`,
`pid`, `config_num` are the descriptor's `idVendor`, `idProduct`,
`bNumConfigurations`; `version` is `ToVersion bcdUSB`; `(clazz, sub_clazz)` is
`GetDeviceClass bDeviceClass bDeviceSubClass`; the three strings are what
`GetStringDesc` returns at `iSerialNumber`, `iManufacturer`, `iProduct`;
`bus_number` and `address` are the device's bus number and address. -/
theorem C9_Search_record_fields (host : Host) (r : UsbInfo) (hr : r ∈ (Search host).1) :
    ∃ i : Nat, (i : Int) < host.get_device_list ∧
      0 ≤ (host.devices i).get_device_descriptor.1 ∧ 0 ≤ (host.devices i).open_ret ∧
      r.vid = (host.devices i).get_device_descriptor.2.idVendor ∧
      r.pid = (host.devices i).get_device_descriptor.2.idProduct ∧
      r.config_num = (host.devices i).get_device_descriptor.2.bNumConfigurations ∧
      r.version = ToVersion (host.devices i).get_device_descriptor.2.bcdUSB ∧
      (r.clazz, r.sub_clazz) =
        GetDeviceClass (host.devices i).get_device_descriptor.2.bDeviceClass
          (host.devices i).get_device_descriptor.2.bDeviceSubClass ∧
      (∀ tr, r.serial_number =
        (GetStringDesc (host.devices i) i
          (host.devices i).get_device_descriptor.2.iSerialNumber tr).1) ∧
      (∀ tr, r.manufacturer =
        (GetStringDesc (host.devices i) i
          (host.devices i).get_device_descriptor.2.iManufacturer tr).1) ∧
      (∀ tr, r.product =
        (GetStringDesc (host.devices i) i
          (host.devices i).get_device_descriptor.2.iProduct tr).1) ∧
      r.bus_number = (host.devices i).get_bus_number ∧
      r.address = (host.devices i).get_device_address := by
  rw [Search_fst] at hr
  split at hr
  · rename_i hok
    simp only [List.mem_map, List.mem_filter, List.mem_range] at hr
    obtain ⟨i, ⟨hi, hdev⟩, rfl⟩ := hr
    simp only [deviceOk, Bool.and_eq_true, decide_eq_true_eq] at hdev
    refine ⟨i, by omega, hdev.1, hdev.2, ?_⟩
    simp [deviceRecord, GetStringDesc_fst]
  · simp at hr

/-- Witness of C9 at the record of the readable device of `simulatedHost`. -/
theorem C9_Search_record_fields_witness :
    ∃ i : Nat, (i : Int) < simulatedHost.get_device_list ∧
      0 ≤ (simulatedHost.devices i).get_device_descriptor.1 ∧
      0 ≤ (simulatedHost.devices i).open_ret ∧
      (0x1234 : Nat) = (simulatedHost.devices i).get_device_descriptor.2.idVendor ∧
      (0x5678 : Nat) = (simulatedHost.devices i).get_device_descriptor.2.idProduct ∧
      (1 : Nat) = (simulatedHost.devices i).get_device_descriptor.2.bNumConfigurations ∧
      "USB 2.0" = ToVersion (simulatedHost.devices i).get_device_descriptor.2.bcdUSB ∧
      ("人机接口", "引导接口") =
        GetDeviceClass (simulatedHost.devices i).get_device_descriptor.2.bDeviceClass
          (simulatedHost.devices i).get_device_descriptor.2.bDeviceSubClass ∧
      (∀ tr, "SN0001" =
        (GetStringDesc (simulatedHost.devices i) i
          (simulatedHost.devices i).get_device_descriptor.2.iSerialNumber tr).1) ∧
      (∀ tr, "Acme" =
        (GetStringDesc (simulatedHost.devices i) i
          (simulatedHost.devices i).get_device_descriptor.2.iManufacturer tr).1) ∧
      (∀ tr, "Keyboard" =
        (GetStringDesc (simulatedHost.devices i) i
          (simulatedHost.devices i).get_device_descriptor.2.iProduct tr).1) ∧
      (1 : Nat) = (simulatedHost.devices i).get_bus_number ∧
      (4 : Nat) = (simulatedHost.devices i).get_device_address :=
  C9_Search_record_fields simulatedHost
    { version := "USB 2.0", clazz := "人机接口", sub_clazz := "引导接口", pid := 0x5678,
      vid := 0x1234, bus_number := 1, address := 4, config_num := 1, serial_number := "SN0001",
      manufacturer := "Acme", product := "Keyboard" }
    (by
      have hrec : deviceRecord readableDevice =
          { version := "USB 2.0", clazz := "人机接口", sub_clazz := "引导接口", pid := 0x5678,
            vid := 0x1234, bus_number := 1, address := 4, config_num := 1,
            serial_number := "SN0001", manufacturer := "Acme", product := "Keyboard" } := by
        unfold deviceRecord
        rw [ToVersion_eq]
        decide
      have hs : (Search simulatedHost).1 =
          [deviceRecord readableDevice, deviceRecord muteDevice] := by
        rw [Search_fst]; rfl
      rw [hs, ← hrec]
      exact List.mem_cons_self _ _)

/-! ## Descriptor reader -/

/-- C10: `GetStringDesc` issues the read with the 384-byte buffer and returns
the empty string when the return code is negative, otherwise the first `n`
characters of the buffer, `n` the count returned, a string of length `n`; and
in the device loop of `Search` a device that is read and opened gets its
record with each of the three strings the result of its own read, so a
failed read empties that field only. -/
theorem C10_GetStringDesc_result :
    (∀ (d : libusb_device) (i idx : Nat) (tr : List Event),
      (GetStringDesc d i idx tr).1 =
          (if (d.get_string_descriptor_ascii idx 384).1 < 0 then ""
           else String.mk ((List.range (d.get_string_descriptor_ascii idx 384).1.toNat).map
             (d.get_string_descriptor_ascii idx 384).2)) ∧
        (GetStringDesc d i idx tr).1.length =
          (if (d.get_string_descriptor_ascii idx 384).1 < 0 then 0
           else (d.get_string_descriptor_ascii idx 384).1.toNat) ∧
        Event.libusb_get_string_descriptor_ascii i idx 384 ∈ (GetStringDesc d i idx tr).2) ∧
    (∀ (host : Host) (st : List UsbInfo × List Event) (i : Nat),
      0 ≤ (host.devices i).get_device_descriptor.1 → 0 ≤ (host.devices i).open_ret →
      ∃ r : UsbInfo, (Search_body host st i).1 = st.1 ++ [r] ∧
        r.serial_number = (GetStringDesc (host.devices i) i
          (host.devices i).get_device_descriptor.2.iSerialNumber []).1 ∧
        r.manufacturer = (GetStringDesc (host.devices i) i
          (host.devices i).get_device_descriptor.2.iManufacturer []).1 ∧
        r.product = (GetStringDesc (host.devices i) i
          (host.devices i).get_device_descriptor.2.iProduct []).1) := by
  refine ⟨fun d i idx tr => ⟨?_, ?_, ?_⟩, fun host st i h1 h2 => ?_⟩
  · rw [GetStringDesc_fst]; rfl
  · rw [GetStringDesc_fst]; unfold readString
    by_cases h : (d.get_string_descriptor_ascii idx 384).1 < 0 <;> simp [h, String.length]
  · unfold GetStringDesc kMaxDescLength
    by_cases h : (d.get_string_descriptor_ascii idx 384).1 < 0 <;> simp [h]
  · refine ⟨deviceRecord (host.devices i), ?_, ?_, ?_, ?_⟩
    · rw [Search_body_fst]; simp [deviceOk, h1, h2]
    all_goals rw [GetStringDesc_fst]; rfl

/-- Witness of C10 at the mute device of `simulatedHost`: its manufacturer
read fails and yields `""`, its product and serial number are read, and its
record is appended. -/
theorem C10_GetStringDesc_result_witness :
    (GetStringDesc muteDevice 3 1 []).1 = "" ∧
      (GetStringDesc muteDevice 3 2 []).1 = "Mouse" ∧
      (GetStringDesc muteDevice 3 2 []).1.length = 5 ∧
      ∃ r : UsbInfo, (Search_body simulatedHost ([], []) 3).1 = [r] ∧
        r.serial_number = "SN0002" ∧ r.manufacturer = "" ∧ r.product = "Mouse" := by
  have hread := C10_GetStringDesc_result.1
  obtain ⟨r, hr, hs, hm, hp⟩ :=
    C10_GetStringDesc_result.2 simulatedHost ([], []) 3 (by decide) (by decide)
  refine ⟨(hread muteDevice 3 1 []).1.trans (by decide),
    (hread muteDevice 3 2 []).1.trans (by decide),
    (hread muteDevice 3 2 []).2.1.trans (by decide), r, hr, ?_, ?_, ?_⟩
  · exact hs.trans ((hread _ 3 _ []).1.trans (by decide))
  · exact hm.trans ((hread _ 3 _ []).1.trans (by decide))
  · exact hp.trans ((hread _ 3 _ []).1.trans (by decide))

/-! ## Auxiliary lemmas on traces -/

theorem foldl_append_eq_flatMap {α : Type} (f : List Event → α → List Event)
    (g : α → List Event) (hf : ∀ tr a, f tr a = tr ++ g a) (l : List α) :
    ∀ tr : List Event, l.foldl f tr = tr ++ l.flatMap g := by
  induction l with
  | nil => intro tr; simp
  | cons a l ih =>
    intro tr
    rw [List.foldl_cons, ih, hf, List.flatMap_cons, List.append_assoc]

theorem GetEndpointInfo_eq (alt : libusb_interface_descriptor) (tr : List Event) :
    GetEndpointInfo alt tr = tr ++ (endpointAddresses alt).map Event.info_endpoint_address := by
  unfold GetEndpointInfo endpointAddresses
  rw [foldl_append_eq_flatMap _
    (fun i => [Event.info_endpoint_address (alt.endpoint i).bEndpointAddress])
    (fun _ _ => rfl)]
  congr 1
  induction List.range alt.bNumEndpoints with
  | nil => rfl
  | cons a l ih => simp [List.flatMap_cons, ih]

theorem GetInterfaceInfo_eq (config_desc : libusb_config_descriptor) (tr : List Event) :
    GetInterfaceInfo config_desc tr =
      tr ++ Event.info_interface_number config_desc.bNumInterfaces ::
        (configAddresses config_desc).map Event.info_endpoint_address := by
  unfold GetInterfaceInfo configAddresses
  have inner : ∀ (tr : List Event) (i : Nat),
      (List.range (config_desc.interface i).num_altsetting.toNat).foldl
          (fun tr j => GetEndpointInfo ((config_desc.interface i).altsetting j) tr) tr =
        tr ++ (interfaceAddresses (config_desc.interface i)).map Event.info_endpoint_address := by
    intro tr i
    rw [foldl_append_eq_flatMap _
      (fun j => (endpointAddresses ((config_desc.interface i).altsetting j)).map
        Event.info_endpoint_address)
      (fun tr j => GetEndpointInfo_eq _ tr)]
    simp [interfaceAddresses, List.map_flatMap]
  simp only []
  rw [foldl_append_eq_flatMap _
    (fun i => (interfaceAddresses (config_desc.interface i)).map Event.info_endpoint_address)
    inner]
  simp [List.map_flatMap]

theorem GetConfigDesc_eq (dev : libusb_device) (device config_num : Nat) (tr : List Event) :
    GetConfigDesc dev device config_num tr =
      tr ++ (List.range config_num).flatMap (configTrace dev device) := by
  unfold GetConfigDesc
  apply foldl_append_eq_flatMap
  intro tr k
  unfold configTrace
  by_cases h : (dev.get_config_descriptor k).1 < 0
  · simp [h]
  · simp only [h, if_false]
    rw [GetInterfaceInfo_eq, GetInterfaceInfo_eq]
    simp

theorem GetStringDesc_snd (d : libusb_device) (i idx : Nat) (tr : List Event) :
    (GetStringDesc d i idx tr).2 = tr ++ (GetStringDesc d i idx []).2 := by
  unfold GetStringDesc
  by_cases h : (d.get_string_descriptor_ascii idx kMaxDescLength).1 < 0 <;> simp [h]

theorem Search_body_snd (host : Host) (st : List UsbInfo × List Event) (i : Nat) :
    (Search_body host st i).2 = st.2 ++ deviceTrace host i := by
  unfold deviceTrace Search_body
  by_cases h1 : (host.devices i).get_device_descriptor.1 < 0
  · simp [h1]
  · by_cases h2 : (host.devices i).open_ret < 0
    · simp only [h1, h2, if_false, if_true]
      rw [GetConfigDesc_eq]
      conv_rhs => rw [GetConfigDesc_eq]
      simp
    · simp only [h1, h2, if_false]
      rw [GetStringDesc_snd _ _ (host.devices i).get_device_descriptor.2.iProduct,
        GetStringDesc_snd _ _ (host.devices i).get_device_descriptor.2.iManufacturer,
        GetStringDesc_snd _ _ (host.devices i).get_device_descriptor.2.iSerialNumber,
        GetConfigDesc_eq]
      conv_rhs =>
        rw [GetStringDesc_snd _ _ (host.devices i).get_device_descriptor.2.iProduct,
          GetStringDesc_snd _ _ (host.devices i).get_device_descriptor.2.iManufacturer,
          GetStringDesc_snd _ _ (host.devices i).get_device_descriptor.2.iSerialNumber,
          GetConfigDesc_eq]
      simp [GetStringDesc_fst]

theorem foldl_Search_body_snd (host : Host) (l : List Nat) :
    ∀ st : List UsbInfo × List Event,
      (l.foldl (Search_body host) st).2 = st.2 ++ l.flatMap (deviceTrace host) := by
  induction l with
  | nil => intro st; simp
  | cons i l ih =>
    intro st
    rw [List.foldl_cons, ih, Search_body_snd, List.flatMap_cons, List.append_assoc]

theorem Search_snd (host : Host) (hinit : host.init_context = LIBUSB_SUCCESS)
    (hlist : 0 ≤ host.get_device_list) :
    (Search host).2 =
      [Event.libusb_init_context, Event.libusb_get_device_list,
          Event.info_device_found host.get_device_list] ++
        (List.range host.get_device_list.toNat).flatMap (deviceTrace host) ++
        [Event.libusb_exit] := by
  have h2 : ¬ host.get_device_list < 0 := by omega
  unfold Search
  simp [hinit, h2, foldl_Search_body_snd]

theorem GetStringDesc_nil_snd (d : libusb_device) (i idx : Nat) :
    (GetStringDesc d i idx []).2 = stringTrace d i idx := by
  unfold GetStringDesc stringTrace kMaxDescLength
  by_cases h : (d.get_string_descriptor_ascii idx 384).1 < 0 <;> simp [h]

theorem deviceTrace_eq (host : Host) (i : Nat) :
    deviceTrace host i =
      Event.libusb_get_device_descriptor i ::
        (if (host.devices i).get_device_descriptor.1 < 0 then
          [Event.warn "libusb_get_device_descriptor" (host.devices i).get_device_descriptor.1]
        else
          Event.info_class (host.devices i).get_device_descriptor.2.bDeviceClass
              (host.devices i).get_device_descriptor.2.bDeviceSubClass ::
            ((List.range (host.devices i).get_device_descriptor.2.bNumConfigurations).flatMap
                (configTrace (host.devices i) i) ++
              Event.libusb_open i ::
                (if (host.devices i).open_ret < 0 then
                  [Event.warn "libusb_open" (host.devices i).open_ret]
                else
                  stringTrace (host.devices i) i
                      (host.devices i).get_device_descriptor.2.iSerialNumber ++
                    stringTrace (host.devices i) i
                      (host.devices i).get_device_descriptor.2.iManufacturer ++
                    stringTrace (host.devices i) i
                      (host.devices i).get_device_descriptor.2.iProduct ++
                    [Event.libusb_get_bus_number i, Event.libusb_get_device_address i,
                      Event.info_usb_info (deviceRecord (host.devices i)),
                      Event.libusb_close i]))) := by
  unfold deviceTrace Search_body
  by_cases h1 : (host.devices i).get_device_descriptor.1 < 0
  · simp [h1]
  · by_cases h2 : (host.devices i).open_ret < 0
    · simp only [h1, h2, if_false, if_true]
      rw [GetConfigDesc_eq]
      simp
    · simp only [h1, h2, if_false]
      rw [GetStringDesc_snd _ _ (host.devices i).get_device_descriptor.2.iProduct,
        GetStringDesc_snd _ _ (host.devices i).get_device_descriptor.2.iManufacturer,
        GetStringDesc_snd _ _ (host.devices i).get_device_descriptor.2.iSerialNumber,
        GetConfigDesc_eq]
      simp [GetStringDesc_fst, GetStringDesc_nil_snd, deviceRecord]

theorem mem_configTrace (dev : libusb_device) (device k : Nat) (e : Event)
    (he : e ∈ configTrace dev device k) :
    e = Event.libusb_get_config_descriptor device k ∨ (∃ call code, e = Event.warn call code) ∨
      (∃ n, e = Event.info_interface_number n) ∨ ∃ a, e = Event.info_endpoint_address a := by
  unfold configTrace at he
  rw [GetInterfaceInfo_eq] at he
  split_ifs at he
  · simp only [List.mem_cons, List.mem_singleton, List.not_mem_nil, or_false] at he
    rcases he with rfl | rfl
    · exact Or.inl rfl
    · exact Or.inr (Or.inl ⟨_, _, rfl⟩)
  · simp only [List.nil_append, List.mem_cons, List.mem_map] at he
    rcases he with rfl | rfl | ⟨a, _, rfl⟩
    · exact Or.inl rfl
    · exact Or.inr (Or.inr (Or.inl ⟨_, rfl⟩))
    · exact Or.inr (Or.inr (Or.inr ⟨_, rfl⟩))

theorem mem_stringTrace (dev : libusb_device) (device idx : Nat) (e : Event)
    (he : e ∈ stringTrace dev device idx) :
    e = Event.libusb_get_string_descriptor_ascii device idx 384 ∨
      ∃ call code, e = Event.warn call code := by
  unfold stringTrace at he
  split_ifs at he
  · simp only [List.mem_cons, List.mem_singleton, List.not_mem_nil, or_false] at he
    rcases he with rfl | rfl
    · exact Or.inl rfl
    · exact Or.inr ⟨_, _, rfl⟩
  · simp only [List.mem_cons, List.not_mem_nil, or_false] at he
    exact Or.inl he

theorem filter_isHandleCall_configTrace (dev : libusb_device) (device : Nat) (l : List Nat) :
    (l.flatMap (configTrace dev device)).filter isHandleCall = [] := by
  rw [List.filter_eq_nil_iff]
  intro e he
  rw [List.mem_flatMap] at he
  obtain ⟨k, _, hk⟩ := he
  rcases mem_configTrace _ _ _ _ hk with rfl | ⟨c, code, rfl⟩ | ⟨n, rfl⟩ | ⟨a, rfl⟩ <;>
    simp [isHandleCall]

theorem filter_isHandleCall_stringTrace (dev : libusb_device) (device idx : Nat) :
    (stringTrace dev device idx).filter isHandleCall = [] := by
  rw [List.filter_eq_nil_iff]
  intro e he
  rcases mem_stringTrace _ _ _ _ he with rfl | ⟨c, code, rfl⟩ <;> simp [isHandleCall]

theorem filter_isHandleCall_deviceTrace (host : Host) (i : Nat) :
    (deviceTrace host i).filter isHandleCall = handleCalls host i := by
  rw [deviceTrace_eq]
  unfold handleCalls
  by_cases h1 : (host.devices i).get_device_descriptor.1 < 0
  · simp [h1, isHandleCall]
  · by_cases h2 : (host.devices i).open_ret < 0
    · simp [h1, h2, isHandleCall, List.filter_cons, List.filter_append,
        filter_isHandleCall_configTrace]
    · simp [h1, h2, isHandleCall, List.filter_cons, List.filter_append,
        filter_isHandleCall_configTrace, filter_isHandleCall_stringTrace]

theorem mem_deviceTrace (host : Host) (i : Nat) (e : Event) (he : e ∈ deviceTrace host i) :
    isSessionCall e = false ∧
      ∀ j k, e = Event.libusb_get_config_descriptor j k →
        j = i ∧ 0 ≤ (host.devices i).get_device_descriptor.1 ∧
          k < (host.devices i).get_device_descriptor.2.bNumConfigurations := by
  rw [deviceTrace_eq] at he
  by_cases h1 : (host.devices i).get_device_descriptor.1 < 0
  · simp only [h1, if_true, List.mem_cons, List.mem_singleton, List.not_mem_nil, or_false] at he
    rcases he with rfl | rfl <;> exact ⟨rfl, fun j k h => by cases h⟩
  · have h1p : 0 ≤ (host.devices i).get_device_descriptor.1 := by omega
    simp only [h1, if_false, List.mem_cons, List.mem_append, List.mem_flatMap,
      List.mem_range] at he
    rcases he with rfl | rfl | ⟨k, hk, hmem⟩ | rfl | hrest
    · exact ⟨rfl, fun j k h => by cases h⟩
    · exact ⟨rfl, fun j k h => by cases h⟩
    · rcases mem_configTrace _ _ _ _ hmem with rfl | ⟨c, code, rfl⟩ | ⟨n, rfl⟩ | ⟨a, rfl⟩
      · refine ⟨rfl, fun j k2 h => ?_⟩
        cases h
        exact ⟨rfl, h1p, hk⟩
      all_goals exact ⟨rfl, fun j k h => by cases h⟩
    · exact ⟨rfl, fun j k h => by cases h⟩
    · by_cases h2 : (host.devices i).open_ret < 0
      · simp only [h2, if_true, List.mem_singleton] at hrest
        subst hrest
        exact ⟨rfl, fun j k h => by cases h⟩
      · simp only [h2, if_false, List.mem_append, List.mem_cons, List.mem_singleton,
          List.not_mem_nil, or_false] at hrest
        rcases hrest with ((hs | hs) | hs) | rfl | rfl | rfl | rfl
        iterate 3
          rcases mem_stringTrace _ _ _ _ hs with rfl | ⟨c, code, rfl⟩ <;>
            exact ⟨rfl, fun j k h => by cases h⟩
        all_goals exact ⟨rfl, fun j k h => by cases h⟩

theorem Search_mem_fetch (host : Host) (i k : Nat)
    (h : Event.libusb_get_config_descriptor i k ∈ (Search host).2) :
    0 ≤ (host.devices i).get_device_descriptor.1 ∧
      k < (host.devices i).get_device_descriptor.2.bNumConfigurations := by
  by_cases hinit : host.init_context = LIBUSB_SUCCESS
  · by_cases hlist : 0 ≤ host.get_device_list
    · rw [Search_snd host hinit hlist] at h
      simp only [List.mem_append, List.mem_cons, List.mem_singleton, List.not_mem_nil,
        or_false, List.mem_flatMap, false_or, reduceCtorEq] at h
      obtain ⟨j, _, hj⟩ := h
      obtain ⟨rfl, h1, h2⟩ := (mem_deviceTrace host j _ hj).2 i k rfl
      exact ⟨h1, h2⟩
    · have hneg : host.get_device_list < 0 := by omega
      simp [Search, hinit, hneg] at h
  · simp [Search, hinit] at h

theorem Search_not_mem_free_device_list (host : Host) :
    Event.libusb_free_device_list ∉ (Search host).2 := by
  intro h
  by_cases hinit : host.init_context = LIBUSB_SUCCESS
  · by_cases hlist : 0 ≤ host.get_device_list
    · rw [Search_snd host hinit hlist] at h
      simp only [List.mem_append, List.mem_cons, List.mem_singleton, List.not_mem_nil,
        or_false, List.mem_flatMap, false_or, reduceCtorEq] at h
      obtain ⟨j, _, hj⟩ := h
      have := (mem_deviceTrace host j _ hj).1
      simp [isSessionCall] at this
    · have hneg : host.get_device_list < 0 := by omega
      simp [Search, hinit, hneg] at h
  · simp [Search, hinit] at h

theorem Search_filter_isHandleCall (host : Host) (hinit : host.init_context = LIBUSB_SUCCESS)
    (hlist : 0 ≤ host.get_device_list) :
    (Search host).2.filter isHandleCall =
      (List.range host.get_device_list.toNat).flatMap (handleCalls host) := by
  rw [Search_snd host hinit hlist]
  simp only [List.filter_append, List.filter_flatMap, filter_isHandleCall_deviceTrace]
  simp [isHandleCall]

/-! ## Topology walk within the enumeration -/

/-- C11: a listed device whose descriptor read and open succeed and whose
descriptor reports zero configurations has its record, with `config_num = 0`,
among the records of `Search`; its topology walk leaves the trace as it is
(no fetch, no interface or endpoint line), its iteration logs no walk event,
and the pass fetches no configuration descriptor of that device. -/
theorem C11_zero_configurations (host : Host) (i : Nat)
    (hinit : host.init_context = LIBUSB_SUCCESS) (hi : (i : Int) < host.get_device_list)
    (hdesc : 0 ≤ (host.devices i).get_device_descriptor.1)
    (hopen : 0 ≤ (host.devices i).open_ret)
    (hzero : (host.devices i).get_device_descriptor.2.bNumConfigurations = 0) :
    (∃ r ∈ (Search host).1, r = deviceRecord (host.devices i) ∧ r.config_num = 0) ∧
      (∀ tr, GetConfigDesc (host.devices i) i
        (host.devices i).get_device_descriptor.2.bNumConfigurations tr = tr) ∧
      (∀ e ∈ deviceTrace host i, isWalkEvent e = false) ∧
      (∀ k, Event.libusb_get_config_descriptor i k ∉ (Search host).2) := by
  have hlist : 0 ≤ host.get_device_list := by omega
  refine ⟨⟨deviceRecord (host.devices i), ?_, rfl, ?_⟩, ?_, ?_, ?_⟩
  · rw [Search_fst, if_pos ⟨hinit, hlist⟩, List.mem_map]
    refine ⟨i, ?_, rfl⟩
    rw [List.mem_filter, List.mem_range]
    exact ⟨by omega, by simp [deviceOk, hdesc, hopen]⟩
  · simp [deviceRecord, hzero]
  · intro tr
    rw [hzero]
    rfl
  · intro e he
    rw [deviceTrace_eq] at he
    have h1 : ¬ (host.devices i).get_device_descriptor.1 < 0 := by omega
    have h2 : ¬ (host.devices i).open_ret < 0 := by omega
    simp only [h1, h2, if_false, hzero, List.range_zero, List.flatMap_nil, List.nil_append,
      List.mem_cons, List.mem_append, List.mem_singleton, List.not_mem_nil, or_false] at he
    rcases he with rfl | rfl | rfl | ((hs | hs) | hs) | rfl | rfl | rfl | rfl
    all_goals
      first
        | rfl
        | (rcases mem_stringTrace _ _ _ _ hs with rfl | ⟨c, code, rfl⟩ <;> rfl)
  · intro k hk
    have := (Search_mem_fetch host i k hk).2
    omega

/-- Witness of C11 at `bareHost`, whose one device reports zero
configurations. -/
theorem C11_zero_configurations_witness :
    (∃ r ∈ (Search bareHost).1, r = deviceRecord (bareHost.devices 0) ∧ r.config_num = 0) ∧
      (∀ tr, GetConfigDesc (bareHost.devices 0) 0
        (bareHost.devices 0).get_device_descriptor.2.bNumConfigurations tr = tr) ∧
      (∀ e ∈ deviceTrace bareHost 0, isWalkEvent e = false) ∧
      (∀ k, Event.libusb_get_config_descriptor 0 k ∉ (Search bareHost).2) :=
  C11_zero_configurations bareHost 0 rfl (by decide) (by decide) (by decide) rfl

/-- C12: two host controllers that agree on session initialisation, on the
device count and, for every listed device, on the device descriptor read, the
open, the string reads, the bus number and the address (the
configuration-descriptor fetches are free to differ) get the same records from
`Search`. -/
theorem C12_walk_is_observational (h1 h2 : Host)
    (hinit : h1.init_context = h2.init_context)
    (hlist : h1.get_device_list = h2.get_device_list)
    (hdev : ∀ i : Nat, (i : Int) < h1.get_device_list →
      (h1.devices i).get_device_descriptor = (h2.devices i).get_device_descriptor ∧
      (h1.devices i).open_ret = (h2.devices i).open_ret ∧
      (h1.devices i).get_string_descriptor_ascii = (h2.devices i).get_string_descriptor_ascii ∧
      (h1.devices i).get_bus_number = (h2.devices i).get_bus_number ∧
      (h1.devices i).get_device_address = (h2.devices i).get_device_address) :
    (Search h1).1 = (Search h2).1 := by
  have key : ∀ i ∈ List.range h1.get_device_list.toNat,
      deviceOk (h1.devices i) = deviceOk (h2.devices i) ∧
        deviceRecord (h1.devices i) = deviceRecord (h2.devices i) := by
    intro i hi
    rw [List.mem_range] at hi
    obtain ⟨a, b, c, d, e⟩ := hdev i (by omega)
    simp [deviceOk, deviceRecord, readString, a, b, c, d, e]
  rw [Search_fst, Search_fst, ← hinit, ← hlist]
  split
  · have hf : (List.range h1.get_device_list.toNat).filter (fun i => deviceOk (h1.devices i)) =
        (List.range h1.get_device_list.toNat).filter (fun i => deviceOk (h2.devices i)) :=
      List.filter_congr (fun i hi => (key i hi).1)
    rw [← hf]
    exact List.map_congr_left (fun i hi => (key i (List.mem_of_mem_filter hi)).2)
  · rfl

/-- Witness of C12: `simulatedHost` and the same host with every
configuration-descriptor fetch failing return the same records. -/
theorem C12_walk_is_observational_witness :
    (Search simulatedHost).1 = (Search walklessHost).1 :=
  C12_walk_is_observational simulatedHost walklessHost rfl rfl
    (fun _ _ => ⟨rfl, rfl, rfl, rfl, rfl⟩)

/-- C13, as the claim states it, fails: the one record `Search` returns for
`twoDeviceHost` does not carry the English names `"human-interface"` and
`"boot interface"`. -/
theorem C13_end_to_end_counterexample :
    ¬ ∃ r : UsbInfo, (Search twoDeviceHost).1 = [r] ∧ r.vid = 0x1234 ∧ r.pid = 0x5678 ∧
      r.clazz = "human-interface" ∧ r.sub_clazz = "boot interface" := by
  have hs : (Search twoDeviceHost).1 = [deviceRecord readableDevice] := by
    rw [Search_fst]; rfl
  rintro ⟨r, hr, -, -, hc, -⟩
  rw [hs] at hr
  have hr2 : r = deviceRecord readableDevice := by
    simp only [List.cons.injEq, and_true] at hr
    exact hr.symm
  subst hr2
  revert hc
  simp only [deviceRecord]
  decide

/-- C13, amended: for a host controller reporting two devices, one readable
and openable with `vid = 0x1234`, `pid = 0x5678`, class `0x03`, subclass
`0x01`, the other failing its device-descriptor read, `Search` returns exactly
one record, with `vid = 0x1234`, `pid = 0x5678`, class name `"人机接口"` and
subclass name `"引导接口"`. -/
theorem C13_end_to_end (host : Host) (a b : Nat)
    (hinit : host.init_context = LIBUSB_SUCCESS) (hcount : host.get_device_list = 2)
    (hab : (a = 0 ∧ b = 1) ∨ (a = 1 ∧ b = 0))
    (hdesc : 0 ≤ (host.devices a).get_device_descriptor.1)
    (hopen : 0 ≤ (host.devices a).open_ret)
    (hvid : (host.devices a).get_device_descriptor.2.idVendor = 0x1234)
    (hpid : (host.devices a).get_device_descriptor.2.idProduct = 0x5678)
    (hclass : (host.devices a).get_device_descriptor.2.bDeviceClass = 0x03)
    (hsub : (host.devices a).get_device_descriptor.2.bDeviceSubClass = 0x01)
    (hfail : (host.devices b).get_device_descriptor.1 < 0) :
    ∃ r : UsbInfo, (Search host).1 = [r] ∧ r.vid = 0x1234 ∧ r.pid = 0x5678 ∧
      r.clazz = "人机接口" ∧ r.sub_clazz = "引导接口" := by
  have hoka : deviceOk (host.devices a) = true := by simp [deviceOk, hdesc, hopen]
  have hokb : deviceOk (host.devices b) = false := by
    have : ¬ 0 ≤ (host.devices b).get_device_descriptor.1 := by omega
    simp [deviceOk, this]
  have hs : (Search host).1 = [deviceRecord (host.devices a)] := by
    rw [Search_fst, if_pos ⟨hinit, by omega⟩, hcount]
    have hr : List.range (2 : Int).toNat = [0, 1] := rfl
    rw [hr]
    rcases hab with ⟨rfl, rfl⟩ | ⟨rfl, rfl⟩ <;> simp [List.filter_cons, hoka, hokb]
  refine ⟨deviceRecord (host.devices a), hs, ?_, ?_, ?_, ?_⟩
  · simp [deviceRecord, hvid]
  · simp [deviceRecord, hpid]
  · simp only [deviceRecord, hclass, hsub]; decide
  · simp only [deviceRecord, hclass, hsub]; decide

/-- Witness of C13 at `twoDeviceHost`. -/
theorem C13_end_to_end_witness :
    ∃ r : UsbInfo, (Search twoDeviceHost).1 = [r] ∧ r.vid = 0x1234 ∧ r.pid = 0x5678 ∧
      r.clazz = "人机接口" ∧ r.sub_clazz = "引导接口" :=
  C13_end_to_end twoDeviceHost 0 1 rfl rfl (Or.inl ⟨rfl, rfl⟩) (by decide) (by decide)
    rfl rfl rfl rfl (by decide)

/-! ## Resources -/

/-- C14, as the claim states it, fails: in the pass over `simulatedHost` the
device list is acquired and the trace holds no call releasing it. -/
theorem C14_device_list_released_counterexample :
    simulatedHost.init_context = LIBUSB_SUCCESS ∧ 0 ≤ simulatedHost.get_device_list ∧
      Event.libusb_get_device_list ∈ (Search simulatedHost).2 ∧
      Event.libusb_free_device_list ∉ (Search simulatedHost).2 := by
  refine ⟨rfl, by decide, ?_, Search_not_mem_free_device_list simulatedHost⟩
  rw [Search_snd simulatedHost rfl (by decide)]
  simp

/-- C14, amended: in a pass in which initialisation and device listing
succeed, the open and close calls of the trace are, device by device in list
order, the open followed by the close when the open succeeds, the open alone
when it fails, nothing when the descriptor read fails; so a handle is closed
in the trace exactly when it was opened. -/
theorem C14_handles_closed (host : Host) (hinit : host.init_context = LIBUSB_SUCCESS)
    (hlist : 0 ≤ host.get_device_list) :
    (Search host).2.filter isHandleCall =
        (List.range host.get_device_list.toNat).flatMap (handleCalls host) ∧
      ∀ i : Nat, Event.libusb_close i ∈ (Search host).2 ↔
        ((i : Int) < host.get_device_list ∧ 0 ≤ (host.devices i).get_device_descriptor.1 ∧
          0 ≤ (host.devices i).open_ret) := by
  have hproj := Search_filter_isHandleCall host hinit hlist
  refine ⟨hproj, fun i => ?_⟩
  have hmem : Event.libusb_close i ∈ (Search host).2 ↔
      Event.libusb_close i ∈ (Search host).2.filter isHandleCall := by
    rw [List.mem_filter]
    exact ⟨fun h => ⟨h, rfl⟩, fun h => h.1⟩
  rw [hmem, hproj, List.mem_flatMap]
  constructor
  · rintro ⟨j, hj, hc⟩
    rw [List.mem_range] at hj
    unfold handleCalls at hc
    split_ifs at hc with h1 h2
    · simp at hc
    · simp at hc
    · simp only [List.mem_cons, List.mem_singleton, List.not_mem_nil, or_false,
        reduceCtorEq, false_or, Event.libusb_close.injEq] at hc
      subst hc
      exact ⟨by omega, by omega, by omega⟩
  · rintro ⟨hi, h1, h2⟩
    refine ⟨i, List.mem_range.2 (by omega), ?_⟩
    have h1n : ¬ (host.devices i).get_device_descriptor.1 < 0 := by omega
    have h2n : ¬ (host.devices i).open_ret < 0 := by omega
    simp [handleCalls, h1n, h2n]

/-- Witness of C14 at `simulatedHost`: the handle calls of the pass are the
open and close of the readable device, the failed open of the unopenable one
and the open and close of the mute one. -/
theorem C14_handles_closed_witness :
    (Search simulatedHost).2.filter isHandleCall =
      [Event.libusb_open 1, Event.libusb_close 1, Event.libusb_open 2, Event.libusb_open 3,
        Event.libusb_close 3] :=
  (C14_handles_closed simulatedHost rfl (by decide)).1.trans (by decide)

/-- C18: the number of `libusb_exit` calls in the trace of `Search` is 0 when
initialisation fails, 1 when initialisation and device listing succeed, and 2
when initialisation succeeds and device listing fails, as at `listFailHost`:
there the session is released by the explicit call and again by the
destructor of `context`. -/
theorem C18_libusb_exit_count :
    (∀ host : Host, (Search host).2.count Event.libusb_exit =
      if host.init_context ≠ LIBUSB_SUCCESS then 0
      else if host.get_device_list < 0 then 2 else 1) ∧
    listFailHost.init_context = LIBUSB_SUCCESS ∧ listFailHost.get_device_list < 0 ∧
    (Search listFailHost).2.count Event.libusb_exit = 2 := by
  have hall : ∀ host : Host, (Search host).2.count Event.libusb_exit =
      if host.init_context ≠ LIBUSB_SUCCESS then 0
      else if host.get_device_list < 0 then 2 else 1 := by
    intro host
    by_cases hinit : host.init_context = LIBUSB_SUCCESS
    · by_cases hlist : host.get_device_list < 0
      · simp [Search, hinit, hlist]
      · rw [Search_snd host hinit (by omega)]
        have hzero : List.count Event.libusb_exit
            ((List.range host.get_device_list.toNat).flatMap (deviceTrace host)) = 0 := by
          rw [List.count_eq_zero, List.mem_flatMap]
          rintro ⟨j, _, hj⟩
          have := (mem_deviceTrace host j _ hj).1
          simp [isSessionCall] at this
        simp [hinit, hlist, List.count_append, hzero, List.count_cons]
    · simp [Search, hinit]
  exact ⟨hall, rfl, by decide, (hall listFailHost).trans (by decide)⟩

theorem GetDeviceClass_snd_eq_empty (c s : Nat) (hp : (c, s) ∉ refinementPairs) :
    (GetDeviceClass c s).2 = "" := by
  by_cases hc : c ∈ knownClasses
  · simp only [knownClasses, List.mem_cons, List.mem_singleton, List.not_mem_nil,
      or_false] at hc
    rcases hc with rfl | rfl | rfl | rfl | rfl | rfl | rfl | rfl | rfl | rfl | rfl | rfl |
      rfl | rfl | rfl | rfl <;> simp_all [GetDeviceClass, refinementPairs]
  · simp only [knownClasses, List.mem_cons, List.mem_singleton, List.not_mem_nil,
      or_false, not_or] at hc
    simp [GetDeviceClass, hc]

theorem GetDeviceClass_snd_ne_iff (c s : Nat) :
    (GetDeviceClass c s).2 ≠ "" ↔ (c, s) ∈ refinementPairs := by
  by_cases hp : (c, s) ∈ refinementPairs
  · have hall : ∀ p ∈ refinementPairs, (GetDeviceClass p.1 p.2).2 ≠ "" := by decide
    exact ⟨fun _ => hp, fun _ => hall (c, s) hp⟩
  · exact ⟨fun h => absurd (GetDeviceClass_snd_eq_empty c s hp) h, fun h => absurd h hp⟩

theorem GetDeviceClass_fst_eq (c s : Nat) : (GetDeviceClass c s).1 = (GetDeviceClass c 0).1 := by
  by_cases hc : c ∈ knownClasses
  · simp only [knownClasses, List.mem_cons, List.mem_singleton, List.not_mem_nil,
      or_false] at hc
    rcases hc with rfl | rfl | rfl | rfl | rfl | rfl | rfl | rfl | rfl | rfl | rfl | rfl |
      rfl | rfl | rfl | rfl <;> simp [GetDeviceClass]
  · simp only [knownClasses, List.mem_cons, List.mem_singleton, List.not_mem_nil,
      or_false, not_or] at hc
    simp [GetDeviceClass, hc]

theorem flatMap_ite_singleton {α β : Type} (p : α → Bool) (g : α → β) (l : List α) :
    l.flatMap (fun a => if p a = true then [g a] else []) = (l.filter p).map g := by
  induction l with
  | nil => rfl
  | cons a l ih =>
    by_cases h : p a = true <;> simp [List.flatMap_cons, List.filter_cons, h, ih]

theorem fetchedConfigs_configTrace (dev : libusb_device) (device k : Nat) :
    fetchedConfigs (configTrace dev device k) = [k] := by
  unfold fetchedConfigs configTrace
  rw [GetInterfaceInfo_eq]
  by_cases h : (dev.get_config_descriptor k).1 < 0
  · simp [h]
  · simp [h, List.filterMap_map]

theorem loggedInterfaceCounts_configTrace (dev : libusb_device) (device k : Nat) :
    loggedInterfaceCounts (configTrace dev device k) =
      if decide (0 ≤ (dev.get_config_descriptor k).1) = true then
        [(dev.get_config_descriptor k).2.bNumInterfaces]
      else [] := by
  unfold loggedInterfaceCounts configTrace
  rw [GetInterfaceInfo_eq]
  by_cases h : (dev.get_config_descriptor k).1 < 0
  · have hn : ¬ 0 ≤ (dev.get_config_descriptor k).1 := by omega
    simp [h, hn]
  · have hp : 0 ≤ (dev.get_config_descriptor k).1 := by omega
    simp [h, hp, List.filterMap_map]

/-! ## Subclass refinements -/

/-- C15: the subclass name returned by `GetDeviceClass c s` is non-empty
exactly for the nineteen pairs of `refinementPairs`; a non-empty subclass name
comes with a non-empty class name; and the pairs per class number 3 (0x01),
3 (0x02), 1 (0x03), 6 (0x08), 2 (0x09) and 4 (0xE0). -/
theorem C15_GetDeviceClass_refinements (c s : Nat) :
    ((GetDeviceClass c s).2 ≠ "" ↔ (c, s) ∈ refinementPairs) ∧
      ((GetDeviceClass c s).2 = "" ∨ (GetDeviceClass c s).1 ≠ "") ∧
      refinementPairs.length = 19 ∧
      [0x01, 0x02, 0x03, 0x08, 0x09, 0xE0].map
        (fun k => (refinementPairs.filter (fun p => p.1 = k)).length) = [3, 3, 1, 6, 2, 4] := by
  refine ⟨GetDeviceClass_snd_ne_iff c s, ?_, by decide, by decide⟩
  by_cases hp : (c, s) ∈ refinementPairs
  · have hall : ∀ p ∈ refinementPairs, (GetDeviceClass p.1 p.2).1 ≠ "" := by decide
    exact Or.inr (hall (c, s) hp)
  · exact Or.inl (GetDeviceClass_snd_eq_empty c s hp)

/-! ## Topology walker -/

/-- C16: `GetConfigDesc dev n` appends to the trace, for each index
`0, ..., n-1` in increasing order, the fetch of that configuration followed
by a warning when the fetch fails and by the interface walk when it succeeds;
so the indices fetched are exactly `0, ..., n-1`, and an interface walk is
logged exactly for the indices whose fetch succeeds. -/
theorem C16_GetConfigDesc_fetches (dev : libusb_device) (device n : Nat) (tr : List Event) :
    GetConfigDesc dev device n tr =
        tr ++ (List.range n).flatMap (fun k =>
          Event.libusb_get_config_descriptor device k ::
            (if (dev.get_config_descriptor k).1 < 0 then
              [Event.warn "libusb_get_config_descriptor" (dev.get_config_descriptor k).1]
            else GetInterfaceInfo (dev.get_config_descriptor k).2 [])) ∧
      fetchedConfigs (GetConfigDesc dev device n []) = List.range n ∧
      (fetchedConfigs (GetConfigDesc dev device n [])).length = n ∧
      loggedInterfaceCounts (GetConfigDesc dev device n []) =
        ((List.range n).filter (fun k => decide (0 ≤ (dev.get_config_descriptor k).1))).map
          (fun k => (dev.get_config_descriptor k).2.bNumInterfaces) := by
  have hf : fetchedConfigs (GetConfigDesc dev device n []) = List.range n := by
    rw [GetConfigDesc_eq]
    unfold fetchedConfigs
    rw [List.nil_append, List.filterMap_flatMap]
    have : ∀ k, List.filterMap (fun e =>
        match e with
        | Event.libusb_get_config_descriptor _ k => some k
        | _ => none) (configTrace dev device k) = [k] :=
      fun k => fetchedConfigs_configTrace dev device k
    simp only [this]
    induction List.range n with
    | nil => rfl
    | cons a l ih => simp [List.flatMap_cons, ih]
  refine ⟨GetConfigDesc_eq dev device n tr, hf, by rw [hf, List.length_range], ?_⟩
  rw [GetConfigDesc_eq]
  unfold loggedInterfaceCounts
  rw [List.nil_append, List.filterMap_flatMap]
  have : ∀ k, List.filterMap (fun e =>
      match e with
      | Event.info_interface_number n => some n
      | _ => none) (configTrace dev device k) =
        if decide (0 ≤ (dev.get_config_descriptor k).1) = true then
          [(dev.get_config_descriptor k).2.bNumInterfaces]
        else [] :=
    fun k => loggedInterfaceCounts_configTrace dev device k
  simp only [this]
  exact flatMap_ite_singleton _ _ _

/-- C17: `GetInterfaceInfo` appends to the trace the interface count and
then the endpoint address of every endpoint of every alternate setting of
every interface, in nested order; the addresses logged are those, as many as
the sum of `bNumEndpoints` over all alternate settings of all interfaces; an
interface with `num_altsetting ≤ 0` and an alternate setting with no endpoint
contribute nothing. -/
theorem C17_GetInterfaceInfo_addresses (config_desc : libusb_config_descriptor)
    (tr : List Event) :
    GetInterfaceInfo config_desc tr =
        tr ++ Event.info_interface_number config_desc.bNumInterfaces ::
          ((List.range config_desc.bNumInterfaces).flatMap (fun i =>
            (List.range (config_desc.interface i).num_altsetting.toNat).flatMap (fun j =>
              (List.range ((config_desc.interface i).altsetting j).bNumEndpoints).map (fun k =>
                Event.info_endpoint_address
                  ((((config_desc.interface i).altsetting j).endpoint k).bEndpointAddress))))) ∧
      loggedAddresses (GetInterfaceInfo config_desc []) = configAddresses config_desc ∧
      (loggedAddresses (GetInterfaceInfo config_desc [])).length =
        ((List.range config_desc.bNumInterfaces).map (fun i =>
          ((List.range (config_desc.interface i).num_altsetting.toNat).map (fun j =>
            ((config_desc.interface i).altsetting j).bNumEndpoints)).sum)).sum ∧
      (∀ iface : libusb_interface, iface.num_altsetting ≤ 0 → interfaceAddresses iface = []) ∧
      (∀ alt : libusb_interface_descriptor, alt.bNumEndpoints = 0 →
        endpointAddresses alt = []) := by
  have hl : loggedAddresses (GetInterfaceInfo config_desc []) = configAddresses config_desc := by
    rw [GetInterfaceInfo_eq]
    have hcomp : ((fun e : Event =>
        match e with
        | Event.info_endpoint_address a => some a
        | _ => none) ∘ Event.info_endpoint_address) = some := rfl
    simp [loggedAddresses, List.filterMap_map, hcomp]
  refine ⟨?_, hl, ?_, ?_, ?_⟩
  · rw [GetInterfaceInfo_eq]
    simp only [configAddresses, interfaceAddresses, endpointAddresses, List.map_flatMap,
      List.map_map]
    rfl
  · rw [hl]
    simp [configAddresses, interfaceAddresses, endpointAddresses, List.length_flatMap,
      Function.comp_def]
  · intro iface h
    have : iface.num_altsetting.toNat = 0 := by omega
    simp [interfaceAddresses, this]
  · intro alt h
    simp [endpointAddresses, h]

/-- Witness of C16 at the readable device with three configurations asked
for: the indices fetched are 0, 1, 2 and each walk logs one interface. -/
theorem C16_GetConfigDesc_fetches_witness :
    fetchedConfigs (GetConfigDesc readableDevice 1 3 []) = [0, 1, 2] ∧
      loggedInterfaceCounts (GetConfigDesc readableDevice 1 3 []) = [1, 1, 1] ∧
      loggedInterfaceCounts (GetConfigDesc muteDevice 3 3 []) = [] :=
  ⟨(C16_GetConfigDesc_fetches readableDevice 1 3 []).2.1.trans (by decide),
    (C16_GetConfigDesc_fetches readableDevice 1 3 []).2.2.2.trans (by decide),
    (C16_GetConfigDesc_fetches muteDevice 3 3 []).2.2.2.trans (by decide)⟩

/-- Witness of C17 at `simpleConfig`: the addresses logged are `0x81` and
`0x02`. -/
theorem C17_GetInterfaceInfo_addresses_witness :
    loggedAddresses (GetInterfaceInfo simpleConfig []) = [0x81, 0x02] ∧
      (loggedAddresses (GetInterfaceInfo simpleConfig [])).length = 2 :=
  ⟨(C17_GetInterfaceInfo_addresses simpleConfig []).2.1.trans (by decide),
    (C17_GetInterfaceInfo_addresses simpleConfig []).2.2.1.trans (by decide)⟩

/-! ## Names identify codes -/

/-- C19: for known class bytes `c1`, `c2`, distinct bytes get distinct class
names (whatever the subclass bytes), and under one class two distinct
subclass bytes that both have a non-empty subclass name get distinct subclass
names. -/
theorem C19_GetDeviceClass_names_injective (c1 c2 s1 s2 : Nat)
    (hc1 : c1 ∈ knownClasses) (hc2 : c2 ∈ knownClasses) :
    (c1 ≠ c2 → (GetDeviceClass c1 s1).1 ≠ (GetDeviceClass c2 s2).1) ∧
      (s1 ≠ s2 → (GetDeviceClass c1 s1).2 ≠ "" → (GetDeviceClass c1 s2).2 ≠ "" →
        (GetDeviceClass c1 s1).2 ≠ (GetDeviceClass c1 s2).2) := by
  constructor
  · intro hne
    rw [GetDeviceClass_fst_eq c1 s1, GetDeviceClass_fst_eq c2 s2]
    have hall : ∀ a ∈ knownClasses, ∀ b ∈ knownClasses, a ≠ b →
        (GetDeviceClass a 0).1 ≠ (GetDeviceClass b 0).1 := by decide
    exact hall c1 hc1 c2 hc2 hne
  · intro hne h1 h2
    rw [GetDeviceClass_snd_ne_iff] at h1 h2
    have hall : ∀ p ∈ refinementPairs, ∀ q ∈ refinementPairs, p.1 = q.1 → p.2 ≠ q.2 →
        (GetDeviceClass p.1 p.2).2 ≠ (GetDeviceClass q.1 q.2).2 := by decide
    exact hall (c1, s1) h1 (c1, s2) h2 rfl hne

/-- Witness of C19: mass storage and hub have different class names, and the
mass-storage subclasses 1 and 2 have different names. -/
theorem C19_GetDeviceClass_names_injective_witness :
    (GetDeviceClass 0x08 1).1 ≠ (GetDeviceClass 0x09 2).1 ∧
      (GetDeviceClass 0x08 1).2 ≠ (GetDeviceClass 0x08 2).2 :=
  ⟨(C19_GetDeviceClass_names_injective 0x08 0x09 1 2 (by decide) (by decide)).1 (by decide),
    (C19_GetDeviceClass_names_injective 0x08 0x09 1 2 (by decide) (by decide)).2 (by decide)
      (by decide) (by decide)⟩

end UsbTool
